import Mathlib

/-!
# Verification of the poly1 trading pipeline core

Shallow embedding of the core components of the repository:
`FadeStrategy` (src/strategy/fade_strategy.py), `RiskManager`
(src/risk/risk_manager.py), `AnomalyDetector` (src/features/anomaly_detector.py)
and `ExecutionEngine` (src/execution/execution_engine.py).

Modelling conventions:
* Python `float` values are modelled as exact rationals `ℚ`.
* `datetime` timestamps are modelled as rational numbers of seconds;
  `datetime.now()` becomes an explicit `now : ℚ` argument.
* Python `dict[str, float]` feature maps are modelled as association lists
  with leftmost binding taking precedence (`featGet` / `featPut`).
* External inputs (the kill-switch file's existence, the HTTP transport's
  responses) become explicit parameters.
-/

/-- A feature map, as passed between detector and strategy
(`Dict[str, float]` in the source). Leftmost binding wins. -/
abbrev Feat := List (String × ℚ)

/-- `features.get(key, dflt)`. -/
def featGet (fs : Feat) (key : String) (dflt : ℚ) : ℚ :=
  match fs.lookup key with
  | some v => v
  | none => dflt

/-- `features[key] = v` (dict assignment, modelled by shadowing). -/
def featPut (fs : Feat) (key : String) (v : ℚ) : Feat :=
  (key, v) :: fs

/-! ## FadeStrategy (src/strategy/fade_strategy.py) -/

/-- Constructor arguments of `FadeStrategy.__init__`. -/
structure FadeConfig where
  anomaly_threshold : ℚ
  min_impact_per_volume : ℚ
  take_profit_bps : ℤ
  stop_loss_bps : ℤ
  time_stop_min : ℤ
  atr_window : ℕ
deriving Repr, DecidableEq

/-- The `Signal` dataclass of fade_strategy.py. -/
structure Signal where
  market : String
  side : String
  price : ℚ
  size : ℚ
  reason : String
  score : ℚ
  features : Feat
deriving Repr, DecidableEq

/-- Appending to a `deque(maxlen := maxlen)`: keep the most recent
`maxlen` entries, dropping from the front. -/
def pushBounded (maxlen : ℕ) (xs : List ℚ) (x : ℚ) : List ℚ :=
  let ys := xs ++ [x]
  ys.drop (ys.length - maxlen)

/-- Absolute consecutive differences (the `returns` list built in
`FadeStrategy._update_atr`). -/
def absDiffs : List ℚ → List ℚ
  | a :: b :: rest => |b - a| :: absDiffs (b :: rest)
  | _ => []

/-- The ATR proxy computed by `FadeStrategy._update_atr` on the price
history *after* the append: mean of absolute consecutive differences,
`0` when fewer than two prices are retained. -/
def atrOf (prices : List ℚ) : ℚ :=
  if prices.length < 2 then 0
  else (absDiffs prices).sum / ((absDiffs prices).length : ℚ)

/-- `FadeStrategy.generate_signal`.  The per-market price history deque is
threaded explicitly: the call appends `mid` (bounded by `atr_window + 1`)
*before* any gating check, and the second component of the result is the
updated history (`self.price_history[market]` after the call). -/
def generate_signal (cfg : FadeConfig) (hist : List ℚ) (market : String)
    (mid short_move score : ℚ) (features : Feat) (order_size : ℚ) :
    Option Signal × List ℚ :=
  let hist2 := pushBounded (cfg.atr_window + 1) hist mid
  let atr := atrOf hist2
  if score < cfg.anomaly_threshold then (none, hist2)
  else
    let impact_per_volume := featGet features "impact_per_volume" 0
    if impact_per_volume > cfg.min_impact_per_volume then (none, hist2)
    else if short_move = 0 then (none, hist2)
    else
      let side := if short_move > 0 then "sell" else "buy"
      let price := mid * (1 + (if side = "sell" then -(5 : ℚ) / 10000 else (5 : ℚ) / 10000))
      let tp0 := price *
        (1 + (if side = "buy" then (cfg.take_profit_bps : ℚ) / 10000 else -(cfg.take_profit_bps : ℚ) / 10000))
      let sl0 := price *
        (1 - (if side = "buy" then (cfg.stop_loss_bps : ℚ) / 10000 else -(cfg.stop_loss_bps : ℚ) / 10000))
      let tp1 := if atr > 0 then
          (if side = "buy" then max tp0 (price + 2 * atr) else min tp0 (price - 2 * atr))
        else tp0
      let sl1 := if atr > 0 then
          (if side = "buy" then min sl0 (price - (3 : ℚ) / 2 * atr) else max sl0 (price + (3 : ℚ) / 2 * atr))
        else sl0
      let features2 := featPut (featPut (featPut features "atr" atr) "tp_price" tp1) "sl_price" sl1
      (some { market := market, side := side, price := price, size := order_size,
              reason := "fade_micro_move_atr", score := score, features := features2 },
       hist2)

/-! ## RiskManager (src/risk/risk_manager.py) -/

/-- The `MarketExposure` dataclass. -/
structure MarketExposure where
  position : ℚ := 0
  notional : ℚ := 0
deriving Repr, DecidableEq

/-- The `RiskState` dataclass.  `exposures` is a `market -> MarketExposure`
dict, modelled as an association list in insertion order. -/
structure RiskState where
  exposures : List (String × MarketExposure)
  realized_pnl : ℚ
  orders_last_minute : ℕ
  last_reset : ℚ
deriving Repr, DecidableEq

/-- Constructor arguments of `RiskManager.__init__` (the kill-switch file
name is replaced by an explicit boolean input to `check_order`). -/
structure RiskConfig where
  max_position_per_market : ℚ
  max_global_exposure : ℚ
  max_daily_loss : ℚ
  max_orders_per_minute : ℕ
deriving Repr, DecidableEq

/-- `RiskState()` freshly constructed at time `t0`. -/
def freshRiskState (t0 : ℚ) : RiskState :=
  { exposures := [], realized_pnl := 0, orders_last_minute := 0, last_reset := t0 }

/-- `RiskManager._reset_rate_limit`. -/
def resetRateLimit (now : ℚ) (s : RiskState) : RiskState :=
  if now - s.last_reset ≥ 60 then
    { s with orders_last_minute := 0, last_reset := now }
  else s

/-- `self.state.exposures.get(market, MarketExposure())`. -/
def getExposure (s : RiskState) (market : String) : MarketExposure :=
  match s.exposures.lookup market with
  | some e => e
  | none => {}

/-- `sum(abs(exp.position) for exp in self.state.exposures.values())`. -/
def totalAbsPosition (s : RiskState) : ℚ :=
  (s.exposures.map (fun p => |p.2.position|)).sum

/-- `RiskManager.check_order`.  The kill-switch file's existence and the
current time are explicit inputs; the second component is the state after
the call (only the rate-limit roll-over can modify it). -/
def check_order (cfg : RiskConfig) (killSwitch : Bool) (now : ℚ) (s : RiskState)
    (market : String) (size price : ℚ) : Bool × RiskState :=
  if killSwitch then (false, s)
  else
    let s1 := resetRateLimit now s
    if s1.orders_last_minute ≥ cfg.max_orders_per_minute then (false, s1)
    else
      let exposure := getExposure s1 market
      let projected_position := exposure.position + size
      let projected_notional := |projected_position * price|
      if projected_notional > cfg.max_position_per_market then (false, s1)
      else
        let total_exposure := totalAbsPosition s1 + |size|
        if total_exposure > cfg.max_global_exposure then (false, s1)
        else if s1.realized_pnl ≤ -|cfg.max_daily_loss| then (false, s1)
        else (true, s1)

/-- `RiskManager.record_order`. -/
def record_order (now : ℚ) (s : RiskState) : RiskState :=
  let s1 := resetRateLimit now s
  { s1 with orders_last_minute := s1.orders_last_minute + 1 }

/-- Replace the binding of `market` (or append it, mirroring dict
insertion order) — the effect of `record_fill`'s get-or-create plus
in-place mutation on the exposures dict. -/
def upsertExposure : List (String × MarketExposure) → String → MarketExposure →
    List (String × MarketExposure)
  | [], market, e => [(market, e)]
  | (k, v) :: rest, market, e =>
    if k = market then (market, e) :: rest else (k, v) :: upsertExposure rest market e

/-- `RiskManager.record_fill`. -/
def record_fill (market : String) (filled_size price pnl : ℚ) (s : RiskState) :
    RiskState :=
  let old := getExposure s market
  let newPos := old.position + filled_size
  { s with
    exposures := upsertExposure s.exposures market
      { position := newPos, notional := newPos * price },
    realized_pnl := s.realized_pnl + pnl }

/-! ## AnomalyDetector (src/features/anomaly_detector.py) -/

/-- The `Trade` dataclass (src/data/storage.py). -/
structure Trade where
  market : String
  trade_id : String
  price : ℚ
  size : ℚ
  side : String
  timestamp : ℚ
deriving Repr, DecidableEq

/-- The `OrderBookView` dataclass. -/
structure OrderBookView where
  best_bid : ℚ
  best_ask : ℚ
  bids : List (ℚ × ℚ)
  asks : List (ℚ × ℚ)
deriving Repr, DecidableEq

/-- `OrderBookView.mid`. -/
def OrderBookView.mid (ob : OrderBookView) : ℚ := (ob.best_bid + ob.best_ask) / 2

/-- `OrderBookView.spread`. -/
def OrderBookView.spread (ob : OrderBookView) : ℚ := ob.best_ask - ob.best_bid

/-- Constructor arguments of `AnomalyDetector.__init__`. -/
structure DetectorConfig where
  volume_windows_sec : List ℚ
  baseline_window_sec : ℚ
  churn_window_sec : ℚ
  repeat_print_window_sec : ℚ
  spread_window_sec : ℚ
  imbalance_depth_levels : ℕ
deriving Repr, DecidableEq

/-- The per-market window state (`trade_history[market]`,
`mid_history[market]`, `spread_history[market]`); the per-market
defaultdicts create this lazily as the empty state. -/
structure MarketWindow where
  trade_history : List Trade
  mid_history : List (ℚ × ℚ)
  spread_history : List (ℚ × ℚ)
deriving Repr, DecidableEq

/-- The lazily created empty per-market state. -/
def emptyWindow : MarketWindow := ⟨[], [], []⟩

/-- `AnomalyDetector._trim` for one market. -/
def trim (cfg : DetectorConfig) (now : ℚ) (w : MarketWindow) : MarketWindow :=
  let cutoff := now - cfg.baseline_window_sec
  { trade_history := w.trade_history.dropWhile (fun t => t.timestamp < cutoff),
    mid_history := w.mid_history.dropWhile (fun p => p.1 < cutoff),
    spread_history := w.spread_history.dropWhile (fun p => p.1 < cutoff) }

/-- `AnomalyDetector.update` for one market (`now` is the sampling time
`datetime.now()`). -/
def update (cfg : DetectorConfig) (now : ℚ) (trades : List Trade)
    (ob : OrderBookView) (w : MarketWindow) : MarketWindow :=
  trim cfg now
    { trade_history := w.trade_history ++ trades,
      mid_history := w.mid_history ++ [(now, ob.mid)],
      spread_history := w.spread_history ++ [(now, ob.spread)] }

/-- `AnomalyDetector._window_trades`. -/
def windowTrades (now window_sec : ℚ) (w : MarketWindow) : List Trade :=
  w.trade_history.filter (fun t => t.timestamp ≥ now - window_sec)

/-- `AnomalyDetector._volume`. -/
def tradeVolume (trades : List Trade) : ℚ := (trades.map Trade.size).sum

/-- `mids[-1] - mids[0]` guarded by the `len(mids) < 2` check of
`AnomalyDetector._mid_delta`. -/
def deltaOf (xs : List ℚ) : ℚ :=
  if xs.length < 2 then 0 else xs.getLastD 0 - xs.headD 0

/-- `AnomalyDetector._mid_delta` as a function of the retained
`(timestamp, mid)` samples. -/
def midDeltaL (now window_sec : ℚ) (midHist : List (ℚ × ℚ)) : ℚ :=
  deltaOf ((midHist.filter (fun p => p.1 ≥ now - window_sec)).map Prod.snd)

/-- `AnomalyDetector._mid_delta`. -/
def midDelta (now window_sec : ℚ) (w : MarketWindow) : ℚ :=
  midDeltaL now window_sec w.mid_history

/-- Rounding used in the `f"{x:.4f}"` bucketing key of
`_repeat_print_score` (decimal formatting of the float, modelled as exact
round-half-up to 4 decimal places on `ℚ`). -/
def round4 (x : ℚ) : ℤ := ⌊x * 10000 + 1 / 2⌋

/-- The `(price, size)` bucket key of `_repeat_print_score`. -/
def tradeKey (t : Trade) : ℤ × ℤ := (round4 t.price, round4 t.size)

/-- `AnomalyDetector._repeat_print_score` for one market. -/
def repeat_print_score_of (cfg : DetectorConfig) (now : ℚ) (w : MarketWindow) : ℚ :=
  let recent := w.trade_history.filter
    (fun t => t.timestamp ≥ now - cfg.repeat_print_window_sec)
  if recent.isEmpty then 0
  else
    let keys := recent.map tradeKey
    let repeats := (keys.dedup.map (fun k => keys.count k)).filter (fun c => 1 < c)
    if repeats.isEmpty then 0
    else min 1 ((repeats.sum : ℚ) / (recent.length : ℚ))

/-- Ascending insertion sort on `ℚ` (Python `sorted`). -/
def insertSorted (x : ℚ) : List ℚ → List ℚ
  | [] => [x]
  | y :: ys => if x ≤ y then x :: y :: ys else y :: insertSorted x ys

/-- Ascending sort on `ℚ` (Python `sorted`). -/
def sortQ : List ℚ → List ℚ
  | [] => []
  | x :: xs => insertSorted x (sortQ xs)

/-- `AnomalyDetector._spread_regime` for one market. -/
def spread_regime_of (w : MarketWindow) : ℚ :=
  let spreads := w.spread_history.map Prod.snd
  if spreads.isEmpty then 0
  else
    let median := (sortQ spreads).getD (spreads.length / 2) 0
    let current := spreads.getLastD 0
    if median = 0 then 0 else min 1 (current / median)

/-- `AnomalyDetector._orderbook_imbalance`. -/
def orderbook_imbalance_of (cfg : DetectorConfig) (ob : OrderBookView) : ℚ :=
  let bid_depth := ((ob.bids.take cfg.imbalance_depth_levels).map Prod.snd).sum
  let ask_depth := ((ob.asks.take cfg.imbalance_depth_levels).map Prod.snd).sum
  let total := bid_depth + ask_depth
  if total = 0 then 0 else (bid_depth - ask_depth) / total

/-- `statistics.mean` (callers guard against the empty list). -/
def listMean (xs : List ℚ) : ℚ := xs.sum / (xs.length : ℚ)

/-- Exact-rational model of the square root taken by
`statistics.pstdev`: exact on perfect squares (the only square roots the
theorems below evaluate are of perfect squares, or appear symmetrically
on both sides of an equality). -/
def ratSqrt (q : ℚ) : ℚ := (Nat.sqrt q.num.toNat : ℚ) / (Nat.sqrt q.den : ℚ)

/-- `statistics.pstdev` (population standard deviation). -/
def pstdevQ (xs : List ℚ) : ℚ :=
  ratSqrt (listMean (xs.map (fun x => (x - listMean xs) ^ 2)))

/-- The `baseline_volumes` list of `AnomalyDetector.score`: total traded
size within each configured volume window. -/
def baseline_volumes_of (cfg : DetectorConfig) (now : ℚ) (w : MarketWindow) : List ℚ :=
  cfg.volume_windows_sec.map (fun win => tradeVolume (windowTrades now win w))

/-- The `volume_spike_z` feature of `AnomalyDetector.score`: max z-score
across window volumes (0 on std 0 or an empty list). -/
def volume_spike_z_of (cfg : DetectorConfig) (now : ℚ) (w : MarketWindow) : ℚ :=
  let vols := baseline_volumes_of cfg now w
  let m := if vols.isEmpty then 0 else listMean vols
  let std := if 1 < vols.length then pstdevQ vols else 0
  let zs := vols.map (fun v => if std = 0 then 0 else (v - m) / std)
  match zs with
  | [] => 0
  | z :: rest => rest.foldl max z

/-- `baseline_volume` in `AnomalyDetector.score`. -/
def baseline_volume_of (cfg : DetectorConfig) (now : ℚ) (w : MarketWindow) : ℚ :=
  tradeVolume (windowTrades now cfg.baseline_window_sec w)

/-- `churn_volume` in `AnomalyDetector.score`. -/
def churn_volume_of (cfg : DetectorConfig) (now : ℚ) (w : MarketWindow) : ℚ :=
  tradeVolume (windowTrades now cfg.churn_window_sec w)

/-- `churn_mid_delta` in `AnomalyDetector.score`. -/
def churn_mid_delta_of (cfg : DetectorConfig) (now : ℚ) (w : MarketWindow) : ℚ :=
  |midDelta now cfg.churn_window_sec w|

/-- The `churn_ratio` feature. -/
def churn_ratio_of (cfg : DetectorConfig) (now : ℚ) (w : MarketWindow) : ℚ :=
  if churn_mid_delta_of cfg now w = 0 then 0
  else churn_volume_of cfg now w / churn_mid_delta_of cfg now w

/-- The `impact_per_volume` feature. -/
def impact_per_volume_of (cfg : DetectorConfig) (now : ℚ) (w : MarketWindow) : ℚ :=
  if churn_volume_of cfg now w = 0 then 0
  else churn_mid_delta_of cfg now w / churn_volume_of cfg now w

/-- The `churn_signal` term of the composite score. -/
def churn_signal_of (cfg : DetectorConfig) (now : ℚ) (w : MarketWindow) : ℚ :=
  min 1 (churn_ratio_of cfg now w / (baseline_volume_of cfg now w + 1))

/-- `AnomalyDetector.score` for one market: trims first, then computes
the features and the clamped composite score, returning
`(score, explain)`. -/
def scoreOf (cfg : DetectorConfig) (now : ℚ) (w0 : MarketWindow)
    (ob : OrderBookView) : ℚ × Feat :=
  let w := trim cfg now w0
  let explainVols : Feat := cfg.volume_windows_sec.map
    (fun win => ("volume_" ++ toString win ++ "s", tradeVolume (windowTrades now win w)))
  let volume_spike_z := volume_spike_z_of cfg now w
  let churn_ratio_v := churn_ratio_of cfg now w
  let repeat_print := repeat_print_score_of cfg now w
  let impact_per_volume := impact_per_volume_of cfg now w
  let spread_regime := spread_regime_of w
  let ob_imbalance := orderbook_imbalance_of cfg ob
  let normalized_spike := min 1 (max 0 (volume_spike_z / 3))
  let churn_signal := churn_signal_of cfg now w
  let total :=
    0.35 * normalized_spike
    + 0.2 * repeat_print
    + 0.15 * min 1 (spread_regime / 2)
    + 0.2 * min 1 |ob_imbalance|
    + 0.1 * min 1 churn_signal
  let score := max 0 (min 1 total)
  (score,
   explainVols ++
     [("volume_spike_z", volume_spike_z), ("churn_ratio", churn_ratio_v),
      ("repeat_print_score", repeat_print), ("impact_per_volume", impact_per_volume),
      ("spread_regime", spread_regime), ("orderbook_imbalance", ob_imbalance),
      ("anomaly_score", score)])

/-! ## ExecutionEngine (src/execution/execution_engine.py)

The HTTP transport is modelled as an oracle `transport : ℕ → ℕ` giving
the status code of the `i`-th request this call sends.  `_rate_limit`
performs no network interaction (it only sleeps on the local counter) and
is not otherwise observable by the claims below.  Random `uuid` order ids
are abstracted to fixed placeholder strings; the response JSON payload is
opaque and not modelled. -/

/-- The `OrderResponse` dataclass (payload omitted: opaque). -/
structure OrderResponse where
  order_id : String
  status : String
deriving Repr, DecidableEq

/-- Outcome of `place_order` / `cancel_order`: a returned response, the
`ValueError` raised when live mode has no wallet signer, or the
`requests.HTTPError` raised by `raise_for_status` on a 4xx reply. -/
inductive ExecOutcome where
  | resp (r : OrderResponse)
  | configError
  | httpError (status : ℕ)
deriving Repr, DecidableEq

/-- Engine configuration (the fields of `ExecutionEngine.__init__` the
core logic reads; `wallet_signer is not None` becomes `has_signer`). -/
structure EngineConfig where
  trading_mode : String
  rate_limit_per_minute : ℕ
  retry_attempts : ℕ
  retry_backoff_sec : ℚ
  has_signer : Bool
deriving Repr, DecidableEq

/-- The retry loop of `place_order` (`for attempt in range(retry_attempts)`).
Returns the outcome, the number of requests sent, and the list of backoff
sleeps performed (in order).  `attempt` is the 0-based loop index,
`remaining` the number of iterations left. -/
def placeLoop (backoff : ℚ) (transport : ℕ → ℕ) : ℕ → ℕ → ExecOutcome × ℕ × List ℚ
  | _, 0 => (.resp { order_id := "err-x", status := "error" }, 0, [])
  | attempt, remaining + 1 =>
    let st := transport attempt
    if st < 500 then
      if 400 ≤ st then (.httpError st, 1, [])
      else (.resp { order_id := "submitted-x", status := "submitted" }, 1, [])
    else
      let rest := placeLoop backoff transport (attempt + 1) remaining
      (rest.1, rest.2.1 + 1, backoff * (attempt + 1) :: rest.2.2)

/-- `ExecutionEngine.place_order`: outcome, number of network requests
sent, and backoff sleeps performed. -/
def place_order (cfg : EngineConfig) (transport : ℕ → ℕ) :
    ExecOutcome × ℕ × List ℚ :=
  if cfg.trading_mode ≠ "live" then
    (.resp { order_id := "sim-x", status := "simulated" }, 0, [])
  else if !cfg.has_signer then (.configError, 0, [])
  else placeLoop cfg.retry_backoff_sec transport 0 cfg.retry_attempts

/-- `ExecutionEngine.cancel_order`: outcome and number of network
requests sent. -/
def cancel_order (cfg : EngineConfig) (order_id : String) (transport : ℕ → ℕ) :
    ExecOutcome × ℕ :=
  if cfg.trading_mode ≠ "live" then
    (.resp { order_id := order_id, status := "cancelled" }, 0)
  else if !cfg.has_signer then (.configError, 0)
  else
    let st := transport 0
    if 400 ≤ st then (.httpError st, 1)
    else (.resp { order_id := order_id, status := "cancelled" }, 1)

/-! ## Helper lemmas -/

/-- The updated price history returned by `generate_signal` is the bounded
append, in every branch. -/
lemma generate_signal_snd (cfg : FadeConfig) (hist : List ℚ) (market : String)
    (mid short_move score : ℚ) (features : Feat) (order_size : ℚ) :
    (generate_signal cfg hist market mid short_move score features order_size).2 =
      pushBounded (cfg.atr_window + 1) hist mid := by
  simp only [generate_signal]
  split_ifs <;> rfl

lemma resetRateLimit_exposures (now : ℚ) (s : RiskState) :
    (resetRateLimit now s).exposures = s.exposures := by
  unfold resetRateLimit; split_ifs <;> rfl

lemma resetRateLimit_pnl (now : ℚ) (s : RiskState) :
    (resetRateLimit now s).realized_pnl = s.realized_pnl := by
  unfold resetRateLimit; split_ifs <;> rfl

/-- `check_order` returns either the input state or its rate-rolled
version. -/
lemma check_order_snd (cfg : RiskConfig) (killSwitch : Bool) (now : ℚ)
    (s : RiskState) (market : String) (size price : ℚ) :
    (check_order cfg killSwitch now s market size price).2 = s ∨
    (check_order cfg killSwitch now s market size price).2 = resetRateLimit now s := by
  simp only [check_order]
  split_ifs <;> simp

/-! ## Claim C10 -/

/-- Claim C10: every `generate_signal` call appends `mid` to the
per-market price history before any gating check runs (so the history
advances even when the call returns no signal), and the resulting history
holds at most `atr_window + 1` prices, the most recent ones. -/
theorem fade_history_advances (cfg : FadeConfig) (hist : List ℚ) (market : String)
    (mid short_move score : ℚ) (features : Feat) (order_size : ℚ) :
    (generate_signal cfg hist market mid short_move score features order_size).2 =
      (hist ++ [mid]).drop ((hist ++ [mid]).length - (cfg.atr_window + 1)) ∧
    (generate_signal cfg hist market mid short_move score features order_size).2.length
      ≤ cfg.atr_window + 1 ∧
    (generate_signal cfg hist market mid short_move score features order_size).2
      <:+ hist ++ [mid] := by
  rw [generate_signal_snd]
  refine ⟨rfl, ?_, ?_⟩
  · simp only [pushBounded, List.length_drop]
    omega
  · exact List.drop_suffix _ _

/-! ## Claim C1 -/

/-- Claim C1 is refuted at the boundary `score = anomaly_threshold`: the
code gates on `score < anomaly_threshold`, so with the score exactly at
the threshold (and the other two gates passing) a signal *is* emitted,
while the claim demands `None` for scores at or below the threshold. -/
theorem fade_threshold_boundary_cex :
    ((1 : ℚ) / 2 ≤ (1 : ℚ) / 2) ∧
    (generate_signal ⟨1/2, 1/100, 50, 30, 10, 5⟩ [] "m" 100 1 (1/2)
        [("impact_per_volume", 0)] 10).1.isSome = true := by
  refine ⟨le_refl _, ?_⟩
  norm_num [generate_signal, pushBounded, atrOf, absDiffs, featGet]

/-- Claim C1 (amended): no signal is emitted when `score` is *strictly
below* `anomaly_threshold`, or when `features["impact_per_volume"]`
exceeds `min_impact_per_volume`, or when `short_move = 0`; the gates are
checked in that order and the first failing one short-circuits. -/
theorem fade_gates_no_signal (cfg : FadeConfig) (hist : List ℚ) (market : String)
    (mid short_move score : ℚ) (features : Feat) (order_size : ℚ)
    (h : score < cfg.anomaly_threshold ∨
         featGet features "impact_per_volume" 0 > cfg.min_impact_per_volume ∨
         short_move = 0) :
    (generate_signal cfg hist market mid short_move score features order_size).1 = none := by
  unfold generate_signal
  rcases h with h | h | h <;> split_ifs <;> simp_all

/-- Witness for `fade_gates_no_signal` at a concrete input (score below
threshold). -/
theorem fade_gates_no_signal_witness :
    ((0 : ℚ) < 1/2 ∨ featGet [] "impact_per_volume" 0 > (1 : ℚ)/100 ∨ (1 : ℚ) = 0) ∧
    (generate_signal ⟨1/2, 1/100, 50, 30, 10, 5⟩ [] "m" 100 1 0 [] 10).1 = none :=
  ⟨Or.inl (by norm_num),
   fade_gates_no_signal _ _ _ _ _ _ _ _ (Or.inl (by norm_num))⟩

/-! ## Claim C4 -/

/-- Claim C4: the exposures map and `realized_pnl` change only through
`record_fill`; `check_order` and `record_order` never mutate any
`MarketExposure` or `realized_pnl`, touching at most the rate-counter
fields. -/
theorem risk_frame_check_record (cfg : RiskConfig) (killSwitch : Bool) (now : ℚ)
    (s : RiskState) (market : String) (size price : ℚ) :
    (check_order cfg killSwitch now s market size price).2.exposures = s.exposures ∧
    (check_order cfg killSwitch now s market size price).2.realized_pnl = s.realized_pnl ∧
    (record_order now s).exposures = s.exposures ∧
    (record_order now s).realized_pnl = s.realized_pnl := by
  refine ⟨?_, ?_, ?_, ?_⟩
  · rcases check_order_snd cfg killSwitch now s market size price with h | h <;>
      (rw [h]; try simp only [resetRateLimit_exposures])
  · rcases check_order_snd cfg killSwitch now s market size price with h | h <;>
      (rw [h]; try simp only [resetRateLimit_pnl])
  · simp [record_order, resetRateLimit_exposures]
  · simp [record_order, resetRateLimit_pnl]

/-! ## Claim C5 -/

/-- Claim C5: whenever `realized_pnl` is at or below `-max_daily_loss`
(with the kill switch inactive), every `check_order` call returns `false`
regardless of market, size and price; and since `check_order` and
`record_order` never change `realized_pnl`, this persists until a
`record_fill` raises the PnL. -/
theorem risk_daily_loss_rejects (cfg : RiskConfig) (now : ℚ) (s : RiskState)
    (market : String) (size price : ℚ)
    (h0 : 0 ≤ cfg.max_daily_loss)
    (h : s.realized_pnl ≤ -cfg.max_daily_loss) :
    (check_order cfg false now s market size price).1 = false ∧
    (check_order cfg false now s market size price).2.realized_pnl = s.realized_pnl ∧
    (record_order now s).realized_pnl = s.realized_pnl := by
  refine ⟨?_, ?_, ?_⟩
  · have hpnl : (resetRateLimit now s).realized_pnl ≤ -|cfg.max_daily_loss| := by
      rw [resetRateLimit_pnl, abs_of_nonneg h0]; exact h
    unfold check_order
    split_ifs <;> simp_all
  · rcases check_order_snd cfg false now s market size price with hs | hs <;>
      (rw [hs]; try simp only [resetRateLimit_pnl])
  · simp [record_order, resetRateLimit_pnl]

/-- Witness for `risk_daily_loss_rejects` at a concrete input. -/
theorem risk_daily_loss_rejects_witness :
    ((0 : ℚ) ≤ 100) ∧ ((-100 : ℚ) ≤ -(100 : ℚ)) ∧
    (check_order ⟨1000, 1000, 100, 20⟩ false 0 ⟨[], -100, 0, 0⟩ "m" 1 1).1 = false :=
  ⟨by norm_num, by norm_num,
   (risk_daily_loss_rejects ⟨1000, 1000, 100, 20⟩ 0 ⟨[], -100, 0, 0⟩ "m" 1 1
     (by norm_num) (by norm_num)).1⟩

/-! ## Claim C2 -/

/-- Within a still-open 60-second window, `record_order` only increments
the counter: iterating it `k` times from a fresh state gives counter `k`.
-/
lemma record_order_iterate (now t0 : ℚ) (hwin : now - t0 < 60) :
    ∀ k : ℕ, (record_order now)^[k] (freshRiskState t0) =
      { exposures := [], realized_pnl := 0, orders_last_minute := k, last_reset := t0 } := by
  intro k
  induction k with
  | zero => rfl
  | succ n ih =>
    rw [Function.iterate_succ_apply', ih]
    simp only [record_order, resetRateLimit]
    rw [if_neg (by exact not_le.mpr hwin)]

/-- Claim C2: with `max_orders_per_minute = 20`, starting from a fresh
`RiskState` and recording each submitted order via `record_order` (the
operation that increments the counter), the 21st `check_order` inside the
same 60-second window returns `false`; once 60 seconds have elapsed since
`last_reset`, the roll-over inside `check_order` resets the counter to 0
and the order is admitted again. -/
theorem risk_rate_limit_window (cfg : RiskConfig) (t0 now now2 : ℚ)
    (market : String) (size price : ℚ)
    (hmax : cfg.max_orders_per_minute = 20)
    (hwin : now - t0 < 60)
    (hreset : now2 - t0 ≥ 60)
    (hpos : |size * price| ≤ cfg.max_position_per_market)
    (hglob : |size| ≤ cfg.max_global_exposure)
    (hloss : 0 < cfg.max_daily_loss) :
    (check_order cfg false now ((record_order now)^[20] (freshRiskState t0))
        market size price).1 = false ∧
    (check_order cfg false now2 ((record_order now)^[20] (freshRiskState t0))
        market size price).1 = true ∧
    (check_order cfg false now2 ((record_order now)^[20] (freshRiskState t0))
        market size price).2.orders_last_minute = 0 := by
  rw [record_order_iterate now t0 hwin 20]
  have hrl1 : resetRateLimit now
      { exposures := [], realized_pnl := 0, orders_last_minute := 20, last_reset := t0 } =
      { exposures := [], realized_pnl := 0, orders_last_minute := 20, last_reset := t0 } := by
    simp only [resetRateLimit]
    rw [if_neg (by exact not_le.mpr hwin)]
  have hrl2 : resetRateLimit now2
      { exposures := [], realized_pnl := 0, orders_last_minute := 20, last_reset := t0 } =
      { exposures := [], realized_pnl := 0, orders_last_minute := 0, last_reset := now2 } := by
    simp only [resetRateLimit]
    rw [if_pos (by exact hreset)]
  refine ⟨?_, ?_, ?_⟩
  · simp only [check_order, hrl1, Bool.false_eq_true, if_false, hmax]
    rw [if_pos (le_refl 20)]
  · simp only [check_order, hrl2, Bool.false_eq_true, if_false, hmax]
    rw [if_neg (by norm_num), if_neg ?_, if_neg ?_, if_neg ?_]
    · simp [getExposure]
      exact ne_of_gt hloss
    · simp [totalAbsPosition]
      exact hglob
    · simp [getExposure]
      exact hpos
  · simp only [check_order, hrl2, Bool.false_eq_true, if_false, hmax]
    rw [if_neg (by norm_num), if_neg ?_, if_neg ?_, if_neg ?_]
    · simp [getExposure]
      exact ne_of_gt hloss
    · simp [totalAbsPosition]
      exact hglob
    · simp [getExposure]
      exact hpos

/-- Witness for `risk_rate_limit_window` at a concrete input. -/
theorem risk_rate_limit_window_witness :
    ((⟨1000, 1000, 100, 20⟩ : RiskConfig).max_orders_per_minute = 20) ∧
    ((0 : ℚ) - 0 < 60) ∧ ((61 : ℚ) - 0 ≥ 60) ∧
    (|(1 : ℚ) * 1| ≤ 1000) ∧ (|(1 : ℚ)| ≤ 1000) ∧ ((0 : ℚ) < 100) ∧
    (check_order ⟨1000, 1000, 100, 20⟩ false 0
        ((record_order 0)^[20] (freshRiskState 0)) "m" 1 1).1 = false ∧
    (check_order ⟨1000, 1000, 100, 20⟩ false 61
        ((record_order 0)^[20] (freshRiskState 0)) "m" 1 1).1 = true :=
  ⟨rfl, by norm_num, by norm_num, by norm_num, by norm_num, by norm_num,
   (risk_rate_limit_window ⟨1000, 1000, 100, 20⟩ 0 0 61 "m" 1 1 rfl
      (by norm_num) (by norm_num) (by norm_num) (by norm_num) (by norm_num)).1,
   (risk_rate_limit_window ⟨1000, 1000, 100, 20⟩ 0 0 61 "m" 1 1 rfl
      (by norm_num) (by norm_num) (by norm_num) (by norm_num) (by norm_num)).2.1⟩

/-! ## Claim C6 -/

/-- Claim C6: when `trading_mode` is not `"live"`, `place_order` returns
an `OrderResponse` with status `"simulated"` and `cancel_order` one with
status `"cancelled"`, and neither call sends any network request. -/
theorem exec_nonlive_simulated (cfg : EngineConfig) (transport : ℕ → ℕ)
    (order_id : String) (h : cfg.trading_mode ≠ "live") :
    place_order cfg transport =
      (.resp { order_id := "sim-x", status := "simulated" }, 0, []) ∧
    cancel_order cfg order_id transport =
      (.resp { order_id := order_id, status := "cancelled" }, 0) := by
  constructor
  · unfold place_order
    rw [if_pos h]
  · unfold cancel_order
    rw [if_pos h]

/-- Witness for `exec_nonlive_simulated` in paper mode. -/
theorem exec_nonlive_simulated_witness :
    (("paper" : String) ≠ "live") ∧
    place_order ⟨"paper", 60, 3, 2, false⟩ (fun _ => 200) =
      (.resp { order_id := "sim-x", status := "simulated" }, 0, []) ∧
    cancel_order ⟨"paper", 60, 3, 2, false⟩ "oid" (fun _ => 200) =
      (.resp { order_id := "oid", status := "cancelled" }, 0) := by
  refine ⟨by decide, ?_⟩
  exact exec_nonlive_simulated ⟨"paper", 60, 3, 2, false⟩ (fun _ => 200) "oid" (by decide)

/-! ## Claim C7 -/

/-- The backoff sleeps performed by the first `i` iterations of the retry
loop when each of them sees a 5xx: `backoff * (attempt + a + 1)` for
`a = 0, …, i - 1` (`time.sleep(self.retry_backoff_sec * (attempt + 1))`).
-/
def backoffSleeps (backoff : ℚ) (attempt i : ℕ) : List ℚ :=
  (List.range i).map (fun a : ℕ => backoff * ((attempt : ℚ) + (a : ℚ) + 1))

lemma backoffSleeps_succ (backoff : ℚ) (attempt n : ℕ) :
    backoffSleeps backoff attempt (n + 1) =
      backoff * ((attempt : ℚ) + 1) :: backoffSleeps backoff (attempt + 1) n := by
  simp only [backoffSleeps, List.range_succ_eq_map, List.map_cons, List.map_map]
  congr 1
  · push_cast
    ring
  · refine List.map_congr_left (fun a _ => ?_)
    simp only [Function.comp_apply]
    push_cast
    ring

/-- The retry loop, first sub-500 response at relative index `i`: the
loop stops there, having sent `i + 1` requests and slept once after each
of the `i` preceding 5xx responses; a 4xx raises, anything below 400
returns `"submitted"`. -/
lemma placeLoop_first_low (backoff : ℚ) (transport : ℕ → ℕ) :
    ∀ (i remaining attempt : ℕ), i < remaining →
      (∀ j, j < i → 500 ≤ transport (attempt + j)) →
      transport (attempt + i) < 500 →
      placeLoop backoff transport attempt remaining =
        ((if 400 ≤ transport (attempt + i) then ExecOutcome.httpError (transport (attempt + i))
          else ExecOutcome.resp { order_id := "submitted-x", status := "submitted" }),
         i + 1,
         backoffSleeps backoff attempt i) := by
  intro i
  induction i with
  | zero =>
    intro remaining attempt hlt hhigh hlow
    match remaining, hlt with
    | r + 1, _ =>
      simp only [Nat.add_zero] at hlow
      simp only [placeLoop, backoffSleeps, List.range_zero, List.map_nil, Nat.add_zero]
      rw [if_pos hlow]
      split_ifs <;> rfl
  | succ n ih =>
    intro remaining attempt hlt hhigh hlow
    match remaining, hlt with
    | r + 1, _ =>
      have h0 : 500 ≤ transport (attempt + 0) := hhigh 0 (Nat.succ_pos n)
      simp only [placeLoop]
      rw [if_neg (by simpa using not_lt.mpr (by simpa using h0))]
      have hrec := ih r (attempt + 1) (by omega)
        (fun j hj => by
          have := hhigh (j + 1) (Nat.succ_lt_succ hj)
          simpa [Nat.add_assoc, Nat.add_comm 1 j] using this)
        (by
          have harg : attempt + 1 + n = attempt + (n + 1) := by omega
          rw [harg]
          exact hlow)
      have harg : attempt + 1 + n = attempt + (n + 1) := by omega
      rw [harg] at hrec
      rw [hrec, backoffSleeps_succ]

/-- The retry loop when every attempt gets a 5xx: all `remaining`
requests are sent, each followed by its linear-backoff sleep, and the
loop falls through to the synthesized `"error"` response. -/
lemma placeLoop_all_high (backoff : ℚ) (transport : ℕ → ℕ) :
    ∀ (remaining attempt : ℕ),
      (∀ j, j < remaining → 500 ≤ transport (attempt + j)) →
      placeLoop backoff transport attempt remaining =
        (ExecOutcome.resp { order_id := "err-x", status := "error" },
         remaining,
         backoffSleeps backoff attempt remaining) := by
  intro remaining
  induction remaining with
  | zero => intro attempt _; rfl
  | succ r ih =>
    intro attempt hhigh
    have h0 : 500 ≤ transport (attempt + 0) := hhigh 0 (Nat.succ_pos r)
    simp only [placeLoop]
    rw [if_neg (by simpa using not_lt.mpr (by simpa using h0))]
    rw [ih (attempt + 1) (fun j hj => by
      have := hhigh (j + 1) (Nat.succ_lt_succ hj)
      simpa [Nat.add_assoc, Nat.add_comm 1 j] using this)]
    rw [backoffSleeps_succ]

lemma backoffSleeps_zero_base (backoff : ℚ) (i : ℕ) :
    backoffSleeps backoff 0 i =
      (List.range i).map (fun a : ℕ => backoff * ((a : ℚ) + 1)) := by
  refine List.map_congr_left (fun a _ => ?_)
  push_cast
  ring

/-- Claim C7: in live mode, a missing wallet signer raises a
configuration error before any request is sent; otherwise any response
with status below 500 is terminal (4xx raises, success returns
`"submitted"`), only 5xx triggers a retry, the sleep before retry attempt
`i + 1` is `retry_backoff_sec * (i + 1)`, and `retry_attempts`
consecutive 5xx responses yield an `"error"` response instead of an
exception. -/
theorem exec_live_retry (cfg : EngineConfig) (transport : ℕ → ℕ)
    (hlive : cfg.trading_mode = "live") :
    (cfg.has_signer = false →
      place_order cfg transport = (.configError, 0, [])) ∧
    (cfg.has_signer = true →
      (∀ i, i < cfg.retry_attempts →
        (∀ j, j < i → 500 ≤ transport j) →
        transport i < 500 →
        place_order cfg transport =
          ((if 400 ≤ transport i then ExecOutcome.httpError (transport i)
            else ExecOutcome.resp { order_id := "submitted-x", status := "submitted" }),
           i + 1,
           (List.range i).map (fun a : ℕ => cfg.retry_backoff_sec * ((a : ℚ) + 1)))) ∧
      ((∀ j, j < cfg.retry_attempts → 500 ≤ transport j) →
        place_order cfg transport =
          (ExecOutcome.resp { order_id := "err-x", status := "error" },
           cfg.retry_attempts,
           (List.range cfg.retry_attempts).map
             (fun a : ℕ => cfg.retry_backoff_sec * ((a : ℚ) + 1))))) := by
  have hmode : ¬ cfg.trading_mode ≠ "live" := fun h => h hlive
  constructor
  · intro hsig
    unfold place_order
    rw [if_neg hmode, if_pos (by rw [hsig]; rfl)]
  · intro hsig
    constructor
    · intro i hi hhigh hlow
      unfold place_order
      rw [if_neg hmode, if_neg (by rw [hsig]; simp)]
      rw [placeLoop_first_low cfg.retry_backoff_sec transport i cfg.retry_attempts 0 hi
        (fun j hj => by simpa using hhigh j hj) (by simpa using hlow)]
      simp only [Nat.zero_add]
      rw [backoffSleeps_zero_base]
    · intro hhigh
      unfold place_order
      rw [if_neg hmode, if_neg (by rw [hsig]; simp)]
      rw [placeLoop_all_high cfg.retry_backoff_sec transport cfg.retry_attempts 0
        (fun j hj => by simpa using hhigh j hj)]
      rw [backoffSleeps_zero_base]

/-- Witness for `exec_live_retry`: live engine, signer configured,
3 attempts, first response 503, second 200 — one backoff sleep of
`2 * 1`, two requests, `"submitted"`. -/
theorem exec_live_retry_witness :
    ((⟨"live", 60, 3, 2, true⟩ : EngineConfig).trading_mode = "live") ∧
    place_order ⟨"live", 60, 3, 2, true⟩ (fun n => if n = 0 then 503 else 200) =
      (ExecOutcome.resp { order_id := "submitted-x", status := "submitted" }, 2, [2]) := by
  refine ⟨rfl, ?_⟩
  have h := ((exec_live_retry ⟨"live", 60, 3, 2, true⟩
      (fun n => if n = 0 then 503 else 200) rfl).2 rfl).1 1
      (by norm_num)
      (fun j hj => by interval_cases j; norm_num)
      (by norm_num)
  rw [h]
  norm_num [List.range_succ]

/-! ## Claim C9 -/

/-- Claim C9: with `atr_window = 5`, feeding the mid sequence
100 → 101 → 102 through successive `generate_signal` calls for the same
market makes the third call compute ATR proxy 1 (mean of |101−100| and
|102−101|); any sell signal it emits at price `P = 102·(1 − 5/10000)`
carries `tp_price = min (P·(1 − tp_bps/10000)) (P − 2.0)` and
`sl_price = max (P·(1 + sl_bps/10000)) (P + 1.5)`. -/
theorem fade_atr_example (cfg : FadeConfig) (market : String)
    (sm1 sm2 sc1 sc2 : ℚ) (f1 f2 : Feat) (os1 os2 os : ℚ)
    (short_move score : ℚ) (features : Feat)
    (h5 : cfg.atr_window = 5)
    (hsc : ¬ score < cfg.anomaly_threshold)
    (himp : ¬ featGet features "impact_per_volume" 0 > cfg.min_impact_per_volume)
    (hsm : 0 < short_move) :
    (generate_signal cfg
        (generate_signal cfg
            (generate_signal cfg [] market 100 sm1 sc1 f1 os1).2
            market 101 sm2 sc2 f2 os2).2
        market 102 short_move score features os).1 =
      some { market := market, side := "sell",
             price := 102 * (1 - 5 / 10000), size := os,
             reason := "fade_micro_move_atr", score := score,
             features := featPut (featPut (featPut features "atr" 1) "tp_price"
                 (min (102 * (1 - 5/10000) * (1 - (cfg.take_profit_bps : ℚ) / 10000))
                      (102 * (1 - 5/10000) - 2))) "sl_price"
                 (max (102 * (1 - 5/10000) * (1 + (cfg.stop_loss_bps : ℚ) / 10000))
                      (102 * (1 - 5/10000) + 3/2)) } := by
  have hh1 : (generate_signal cfg [] market 100 sm1 sc1 f1 os1).2 = [100] := by
    rw [generate_signal_snd, h5]
    rfl
  have hh2 : (generate_signal cfg [100] market 101 sm2 sc2 f2 os2).2 = [100, 101] := by
    rw [generate_signal_snd, h5]
    rfl
  rw [hh1, hh2]
  have hpush : pushBounded (cfg.atr_window + 1) [100, 101] 102 = [100, 101, 102] := by
    rw [h5]
    rfl
  have hatr : atrOf [100, 101, 102] = 1 := by norm_num [atrOf, absDiffs]
  simp only [generate_signal, hpush, hatr]
  rw [if_neg hsc, if_neg himp, if_neg (ne_of_gt hsm), if_pos hsm]
  norm_num
  simp only [if_neg (show ¬("sell" : String) = "buy" from by decide)]
  ring_nf

/-- Witness for `fade_atr_example` on the concrete configuration of the
repository's own strategy test (threshold 1/2 here, tp 50 bps, sl 30
bps, window 5). -/
theorem fade_atr_example_witness :
    ((⟨1/2, 1/100, 50, 30, 10, 5⟩ : FadeConfig).atr_window = 5) ∧
    (¬ (8/10 : ℚ) < (⟨1/2, 1/100, 50, 30, 10, 5⟩ : FadeConfig).anomaly_threshold) ∧
    (¬ featGet [("impact_per_volume", 1/200)] "impact_per_volume" 0 >
        (⟨1/2, 1/100, 50, 30, 10, 5⟩ : FadeConfig).min_impact_per_volume) ∧
    ((0 : ℚ) < 1) ∧
    (generate_signal ⟨1/2, 1/100, 50, 30, 10, 5⟩
        (generate_signal ⟨1/2, 1/100, 50, 30, 10, 5⟩
            (generate_signal ⟨1/2, 1/100, 50, 30, 10, 5⟩ [] "m" 100 0 0 [] 10).2
            "m" 101 0 0 [] 10).2
        "m" 102 1 (8/10) [("impact_per_volume", 1/200)] 10).1 =
      some { market := "m", side := "sell", price := 102 * (1 - 5/10000), size := 10,
             reason := "fade_micro_move_atr", score := 8/10,
             features := featPut (featPut (featPut [("impact_per_volume", 1/200)] "atr" 1)
                 "tp_price"
                 (min (102 * (1 - 5/10000) * (1 - ((50 : ℤ) : ℚ) / 10000))
                      (102 * (1 - 5/10000) - 2))) "sl_price"
                 (max (102 * (1 - 5/10000) * (1 + ((30 : ℤ) : ℚ) / 10000))
                      (102 * (1 - 5/10000) + 3/2)) } :=
  ⟨rfl, by norm_num, by norm_num [featGet], by norm_num,
   fade_atr_example ⟨1/2, 1/100, 50, 30, 10, 5⟩ "m" 0 0 0 0 [] [] 10 10 10 1 (8/10)
     [("impact_per_volume", 1/200)] rfl (by norm_num) (by norm_num [featGet]) (by norm_num)⟩

/-! ## Claim C8 -/

lemma repeat_print_nonneg (cfg : DetectorConfig) (now : ℚ) (w : MarketWindow) :
    0 ≤ repeat_print_score_of cfg now w := by
  simp only [repeat_print_score_of]
  split_ifs
  · exact le_refl 0
  · exact le_refl 0
  · exact le_min zero_le_one (div_nonneg (Nat.cast_nonneg _) (Nat.cast_nonneg _))

lemma repeat_print_le_one (cfg : DetectorConfig) (now : ℚ) (w : MarketWindow) :
    repeat_print_score_of cfg now w ≤ 1 := by
  simp only [repeat_print_score_of]
  split_ifs
  · exact zero_le_one
  · exact zero_le_one
  · exact min_le_left _ _

/-- Claim C8: with non-negative intermediate feature values, each of the
five weighted terms of the composite (volume-spike, repeat-print,
spread-regime, imbalance, churn) lies in `[0, 1]`, the composite is the
weighted sum 0.35/0.20/0.15/0.20/0.10 of exactly those terms, and the
returned score lies in `[0, 1]`. -/
theorem anomaly_score_clamped (cfg : DetectorConfig) (now : ℚ) (w0 : MarketWindow)
    (ob : OrderBookView)
    (hsr : 0 ≤ spread_regime_of (trim cfg now w0))
    (hcr : 0 ≤ churn_ratio_of cfg now (trim cfg now w0))
    (hbv : 0 ≤ baseline_volume_of cfg now (trim cfg now w0)) :
    (0 ≤ min 1 (max 0 (volume_spike_z_of cfg now (trim cfg now w0) / 3)) ∧
      min 1 (max 0 (volume_spike_z_of cfg now (trim cfg now w0) / 3)) ≤ 1) ∧
    (0 ≤ repeat_print_score_of cfg now (trim cfg now w0) ∧
      repeat_print_score_of cfg now (trim cfg now w0) ≤ 1) ∧
    (0 ≤ min 1 (spread_regime_of (trim cfg now w0) / 2) ∧
      min 1 (spread_regime_of (trim cfg now w0) / 2) ≤ 1) ∧
    (0 ≤ min 1 |orderbook_imbalance_of cfg ob| ∧
      min 1 |orderbook_imbalance_of cfg ob| ≤ 1) ∧
    (0 ≤ min 1 (churn_signal_of cfg now (trim cfg now w0)) ∧
      min 1 (churn_signal_of cfg now (trim cfg now w0)) ≤ 1) ∧
    (scoreOf cfg now w0 ob).1 =
      max 0 (min 1
        (0.35 * min 1 (max 0 (volume_spike_z_of cfg now (trim cfg now w0) / 3))
          + 0.2 * repeat_print_score_of cfg now (trim cfg now w0)
          + 0.15 * min 1 (spread_regime_of (trim cfg now w0) / 2)
          + 0.2 * min 1 |orderbook_imbalance_of cfg ob|
          + 0.1 * min 1 (churn_signal_of cfg now (trim cfg now w0)))) ∧
    0 ≤ (scoreOf cfg now w0 ob).1 ∧ (scoreOf cfg now w0 ob).1 ≤ 1 := by
  have hscore : (scoreOf cfg now w0 ob).1 =
      max 0 (min 1
        (0.35 * min 1 (max 0 (volume_spike_z_of cfg now (trim cfg now w0) / 3))
          + 0.2 * repeat_print_score_of cfg now (trim cfg now w0)
          + 0.15 * min 1 (spread_regime_of (trim cfg now w0) / 2)
          + 0.2 * min 1 |orderbook_imbalance_of cfg ob|
          + 0.1 * min 1 (churn_signal_of cfg now (trim cfg now w0)))) := rfl
  refine ⟨⟨le_min zero_le_one (le_max_left 0 _), min_le_left _ _⟩,
          ⟨repeat_print_nonneg cfg now _, repeat_print_le_one cfg now _⟩,
          ⟨le_min zero_le_one (div_nonneg hsr (by norm_num)), min_le_left _ _⟩,
          ⟨le_min zero_le_one (abs_nonneg _), min_le_left _ _⟩,
          ⟨?_, min_le_left _ _⟩, hscore, ?_, ?_⟩
  · refine le_min zero_le_one ?_
    unfold churn_signal_of
    refine le_min zero_le_one (div_nonneg hcr ?_)
    linarith
  · rw [hscore]
    exact le_max_left 0 _
  · rw [hscore]
    exact max_le zero_le_one (min_le_left _ _)

/-- Witness for `anomaly_score_clamped` on the empty window and an empty
book. -/
theorem anomaly_score_clamped_witness :
    (0 ≤ spread_regime_of (trim ⟨[60], 600, 60, 60, 120, 5⟩ 0 emptyWindow)) ∧
    (0 ≤ churn_ratio_of ⟨[60], 600, 60, 60, 120, 5⟩ 0
        (trim ⟨[60], 600, 60, 60, 120, 5⟩ 0 emptyWindow)) ∧
    (0 ≤ baseline_volume_of ⟨[60], 600, 60, 60, 120, 5⟩ 0
        (trim ⟨[60], 600, 60, 60, 120, 5⟩ 0 emptyWindow)) ∧
    (0 ≤ (scoreOf ⟨[60], 600, 60, 60, 120, 5⟩ 0 emptyWindow ⟨0, 0, [], []⟩).1 ∧
      (scoreOf ⟨[60], 600, 60, 60, 120, 5⟩ 0 emptyWindow ⟨0, 0, [], []⟩).1 ≤ 1) :=
  ⟨by norm_num [spread_regime_of, trim, emptyWindow],
   by norm_num [churn_ratio_of, churn_mid_delta_of, midDelta, midDeltaL, deltaOf, trim, emptyWindow],
   by norm_num [baseline_volume_of, windowTrades, tradeVolume, trim, emptyWindow],
   (anomaly_score_clamped ⟨[60], 600, 60, 60, 120, 5⟩ 0 emptyWindow ⟨0, 0, [], []⟩
      (by norm_num [spread_regime_of, trim, emptyWindow])
      (by norm_num [churn_ratio_of, churn_mid_delta_of, midDelta, midDeltaL, deltaOf, trim, emptyWindow])
      (by norm_num [baseline_volume_of, windowTrades, tradeVolume, trim, emptyWindow])).2.2.2.2.2.2⟩

/-! ## Claim C3 helpers -/

/-- Trimming immediately after an update (same `now`) is a no-op. -/
lemma trim_update (cfg : DetectorConfig) (now : ℚ) (trades : List Trade)
    (ob : OrderBookView) (w : MarketWindow) :
    trim cfg now (update cfg now trades ob w) = update cfg now trades ob w := by
  simp [trim, update, List.dropWhile_idempotent]

/-- Shape of the retained sample history after one and two appends of the
same entry `e` with the same cutoff: either both are empty, or both end
in `e` and the second is the first with `e` appended once more. -/
lemma dropWhile_append_double {α : Type} (p : α → Bool) (l : List α) (e : α) :
    (List.dropWhile p (l ++ [e]) = [] ∧
     List.dropWhile p (List.dropWhile p (l ++ [e]) ++ [e]) = []) ∨
    ∃ Z, List.dropWhile p (l ++ [e]) = Z ++ [e] ∧
         List.dropWhile p (List.dropWhile p (l ++ [e]) ++ [e]) = (Z ++ [e]) ++ [e] := by
  by_cases hD : (List.dropWhile p l).isEmpty
  · by_cases hp : p e
    · left
      have h1 : List.dropWhile p (l ++ [e]) = [] := by
        rw [List.dropWhile_append, if_pos hD]
        simp [hp]
      rw [h1]
      exact ⟨rfl, by simp [hp]⟩
    · right
      have h1 : List.dropWhile p (l ++ [e]) = [e] := by
        rw [List.dropWhile_append, if_pos hD]
        simp [hp]
      refine ⟨[], by simpa using h1, ?_⟩
      rw [h1]
      simp [hp]
  · right
    have h1 : List.dropWhile p (l ++ [e]) = List.dropWhile p l ++ [e] := by
      rw [List.dropWhile_append, if_neg hD]
    refine ⟨List.dropWhile p l, h1, ?_⟩
    rw [h1, List.append_assoc, List.dropWhile_append, List.dropWhile_idempotent,
        if_neg hD]

/-- Appending a duplicate of the final element does not change the
first/last difference. -/
lemma deltaOf_concat_dup (F : List ℚ) (m : ℚ) :
    deltaOf ((F ++ [m]) ++ [m]) = deltaOf (F ++ [m]) := by
  cases F with
  | nil =>
    simp [deltaOf]
  | cons a t =>
    unfold deltaOf
    rw [if_neg (by simp), if_neg (by simp)]
    rw [List.getLastD_concat, List.getLastD_concat]
    have h1 : ((a :: t) ++ [m]) ++ [m] = a :: ((t ++ [m]) ++ [m]) := by simp
    have h2 : (a :: t) ++ [m] = a :: (t ++ [m]) := by simp
    rw [h1, h2]
    rfl

/-- Appending a duplicate of the last retained sample does not change the
mid-delta. -/
lemma midDeltaL_dup (now win : ℚ) (Z : List (ℚ × ℚ)) (e : ℚ × ℚ) :
    midDeltaL now win ((Z ++ [e]) ++ [e]) = midDeltaL now win (Z ++ [e]) := by
  simp only [midDeltaL, List.filter_append, List.map_append]
  by_cases hq : e.1 ≥ now - win
  · have hfe : List.filter (fun p => decide (p.1 ≥ now - win)) [e] = [e] := by
      simp
      linarith
    rw [hfe]
    have hassoc :
        (List.filter (fun p => decide (p.1 ≥ now - win)) Z).map Prod.snd
            ++ [e].map Prod.snd ++ [e].map Prod.snd =
        (((List.filter (fun p => decide (p.1 ≥ now - win)) Z).map Prod.snd
            ++ [e.2]) ++ [e.2]) := by
      simp
    rw [hassoc]
    exact deltaOf_concat_dup _ _
  · have hfe : List.filter (fun p => decide (p.1 ≥ now - win)) [e] = [] := by
      simp
      linarith [not_le.mp hq]
    rw [hfe]
    simp

/-- Claim C3 (amended): a second `update` with an empty trade list and
the same order-book view at the same time leaves every trade-, mid- and
imbalance-based feature unchanged, and leaves the score unchanged
whenever the spread-regime feature is unchanged; the duplicate spread
sample appended by the second update can, however, shift the spread
median and thereby the score (see the counterexample). -/
theorem anomaly_double_update (cfg : DetectorConfig) (now : ℚ) (ob : OrderBookView)
    (w : MarketWindow)
    (hsr : spread_regime_of (update cfg now [] ob (update cfg now [] ob w)) =
           spread_regime_of (update cfg now [] ob w)) :
    (scoreOf cfg now (update cfg now [] ob (update cfg now [] ob w)) ob).1 =
    (scoreOf cfg now (update cfg now [] ob w) ob).1 := by
  set w1 := update cfg now [] ob w with hw1
  set w2 := update cfg now [] ob w1 with hw2
  have ht1 : trim cfg now w1 = w1 := trim_update cfg now [] ob w
  have ht2 : trim cfg now w2 = w2 := trim_update cfg now [] ob w1
  have htr : w2.trade_history = w1.trade_history := by
    rw [hw2, hw1]
    simp [update, trim, List.dropWhile_idempotent]
  have hw1m : w1.mid_history =
      List.dropWhile (fun p => decide (p.1 < now - cfg.baseline_window_sec))
        (w.mid_history ++ [(now, ob.mid)]) := by
    rw [hw1]
    simp [update, trim]
  have hw2m : w2.mid_history =
      List.dropWhile (fun p => decide (p.1 < now - cfg.baseline_window_sec))
        (List.dropWhile (fun p => decide (p.1 < now - cfg.baseline_window_sec))
          (w.mid_history ++ [(now, ob.mid)]) ++ [(now, ob.mid)]) := by
    rw [hw2]
    simp [update, trim]
    rw [hw1m]
  have hmidd : midDeltaL now cfg.churn_window_sec w2.mid_history =
      midDeltaL now cfg.churn_window_sec w1.mid_history := by
    rcases dropWhile_append_double
        (fun p => decide (p.1 < now - cfg.baseline_window_sec))
        w.mid_history (now, ob.mid) with ⟨h1, h2⟩ | ⟨Z, h1, h2⟩
    · rw [hw2m, h2, hw1m, h1]
    · rw [hw2m, h2, hw1m, h1]
      exact midDeltaL_dup now cfg.churn_window_sec Z (now, ob.mid)
  have e_spike : volume_spike_z_of cfg now w2 = volume_spike_z_of cfg now w1 := by
    unfold volume_spike_z_of baseline_volumes_of windowTrades
    rw [htr]
  have e_repeat : repeat_print_score_of cfg now w2 = repeat_print_score_of cfg now w1 := by
    unfold repeat_print_score_of
    rw [htr]
  have e_bvol : baseline_volume_of cfg now w2 = baseline_volume_of cfg now w1 := by
    unfold baseline_volume_of windowTrades
    rw [htr]
  have e_cvol : churn_volume_of cfg now w2 = churn_volume_of cfg now w1 := by
    unfold churn_volume_of windowTrades
    rw [htr]
  have e_cmd : churn_mid_delta_of cfg now w2 = churn_mid_delta_of cfg now w1 := by
    unfold churn_mid_delta_of midDelta
    rw [hmidd]
  have e_cr : churn_ratio_of cfg now w2 = churn_ratio_of cfg now w1 := by
    unfold churn_ratio_of
    rw [e_cvol, e_cmd]
  have e_cs : churn_signal_of cfg now w2 = churn_signal_of cfg now w1 := by
    unfold churn_signal_of
    rw [e_cr, e_bvol]
  simp only [scoreOf, ht1, ht2]
  rw [e_spike, e_repeat, e_cs, hsr]

/-- Claim C3 is refuted: a second `update` with an empty trade list and
the same order-book view appends a duplicate spread sample, which shifts
the median used by `_spread_regime` and changes the score.  Concretely:
after one book with spread 3 and one with spread 1, a second identical
update with the spread-1 book moves the score from 1/40 to 3/40. -/
theorem anomaly_double_update_cex :
    (scoreOf ⟨[60], 600, 60, 60, 120, 5⟩ 0
        (update ⟨[60], 600, 60, 60, 120, 5⟩ 0 [] ⟨0, 1, [], []⟩
          (update ⟨[60], 600, 60, 60, 120, 5⟩ 0 [] ⟨0, 1, [], []⟩
            (update ⟨[60], 600, 60, 60, 120, 5⟩ 0 [] ⟨0, 3, [], []⟩ emptyWindow)))
        ⟨0, 1, [], []⟩).1 ≠
    (scoreOf ⟨[60], 600, 60, 60, 120, 5⟩ 0
        (update ⟨[60], 600, 60, 60, 120, 5⟩ 0 [] ⟨0, 1, [], []⟩
          (update ⟨[60], 600, 60, 60, 120, 5⟩ 0 [] ⟨0, 3, [], []⟩ emptyWindow))
        ⟨0, 1, [], []⟩).1 := by
  have h2 : (scoreOf ⟨[60], 600, 60, 60, 120, 5⟩ 0
      (update ⟨[60], 600, 60, 60, 120, 5⟩ 0 [] ⟨0, 1, [], []⟩
        (update ⟨[60], 600, 60, 60, 120, 5⟩ 0 [] ⟨0, 1, [], []⟩
          (update ⟨[60], 600, 60, 60, 120, 5⟩ 0 [] ⟨0, 3, [], []⟩ emptyWindow)))
      ⟨0, 1, [], []⟩).1 = 3/40 := by
    norm_num [scoreOf, trim, update, emptyWindow, OrderBookView.mid, OrderBookView.spread,
      windowTrades, tradeVolume, baseline_volumes_of, volume_spike_z_of, listMean, pstdevQ,
      ratSqrt, deltaOf, midDeltaL, midDelta, churn_volume_of, churn_mid_delta_of,
      churn_ratio_of, spread_regime_of, sortQ, insertSorted, orderbook_imbalance_of,
      churn_signal_of, baseline_volume_of, repeat_print_score_of, List.dropWhile,
      List.filter]
  have h1 : (scoreOf ⟨[60], 600, 60, 60, 120, 5⟩ 0
      (update ⟨[60], 600, 60, 60, 120, 5⟩ 0 [] ⟨0, 1, [], []⟩
        (update ⟨[60], 600, 60, 60, 120, 5⟩ 0 [] ⟨0, 3, [], []⟩ emptyWindow))
      ⟨0, 1, [], []⟩).1 = 1/40 := by
    norm_num [scoreOf, trim, update, emptyWindow, OrderBookView.mid, OrderBookView.spread,
      windowTrades, tradeVolume, baseline_volumes_of, volume_spike_z_of, listMean, pstdevQ,
      ratSqrt, deltaOf, midDeltaL, midDelta, churn_volume_of, churn_mid_delta_of,
      churn_ratio_of, spread_regime_of, sortQ, insertSorted, orderbook_imbalance_of,
      churn_signal_of, baseline_volume_of, repeat_print_score_of, List.dropWhile,
      List.filter]
  rw [h1, h2]
  norm_num

/-- Witness for `anomaly_double_update` on the empty window with an
empty book (the duplicate spread sample leaves the spread regime at 0, so
the scores agree). -/
theorem anomaly_double_update_witness :
    (spread_regime_of (update ⟨[60], 600, 60, 60, 120, 5⟩ 0 [] ⟨0, 0, [], []⟩
        (update ⟨[60], 600, 60, 60, 120, 5⟩ 0 [] ⟨0, 0, [], []⟩ emptyWindow)) =
      spread_regime_of (update ⟨[60], 600, 60, 60, 120, 5⟩ 0 [] ⟨0, 0, [], []⟩
        emptyWindow)) ∧
    (scoreOf ⟨[60], 600, 60, 60, 120, 5⟩ 0
        (update ⟨[60], 600, 60, 60, 120, 5⟩ 0 [] ⟨0, 0, [], []⟩
          (update ⟨[60], 600, 60, 60, 120, 5⟩ 0 [] ⟨0, 0, [], []⟩ emptyWindow))
        ⟨0, 0, [], []⟩).1 =
    (scoreOf ⟨[60], 600, 60, 60, 120, 5⟩ 0
        (update ⟨[60], 600, 60, 60, 120, 5⟩ 0 [] ⟨0, 0, [], []⟩ emptyWindow)
        ⟨0, 0, [], []⟩).1 :=
  ⟨by norm_num [spread_regime_of, update, trim, emptyWindow, OrderBookView.spread,
      sortQ, insertSorted, List.dropWhile],
   anomaly_double_update ⟨[60], 600, 60, 60, 120, 5⟩ 0 ⟨0, 0, [], []⟩ emptyWindow
     (by norm_num [spread_regime_of, update, trim, emptyWindow, OrderBookView.spread,
        sortQ, insertSorted, List.dropWhile])⟩
